import Mathlib

/-!
Verification of the i3ipc-rs event decoding subsystem (src/event.rs).

The Rust code parses a JSON payload with serde_json and then builds a
category-specific event structure.  We shallowly embed:

* JSON values (`Json`) together with the serde accessors used by the code
  (`get`, `as_str`, `as_i64`, `as_array`);
* the outcome of a decode call (`DecodeResult`): a successful value together
  with the `warn!` diagnostics it emitted, a propagated parse failure
  (the `?` on `json::from_str`), or a Rust panic (every `.unwrap()` on `None`
  and the `unreachable!()` arm are modelled as panics);
* one Lean function per `FromStr` impl, mirroring the Rust field-by-field
  evaluation order, plus one Lean function per `Display` impl.

The text-level JSON parser itself is serde_json, an external dependency, so
each `from_str` takes the parse outcome (`Option Json`): `none` stands for a
parse failure of the raw text and is mapped to `DecodeResult.malformed`
exactly as the `?` operator propagates `json::error::Error`.

String escaping performed by Rust `Debug` formatting of `String` values is
elided (names are rendered between plain quotes); no claim involves strings
containing characters that Rust would escape.
-/

/-- A JSON value, as in serde_json. Numbers are restricted to integers, the
only kind the decoder reads (`as_i64`). -/
inductive Json where
  | null
  | bool (b : Bool)
  | num (n : Int)
  | str (s : String)
  | arr (elems : List Json)
  | obj (fields : List (String × Json))

/-- Key lookup in a JSON object field list (first match). -/
def lookupKV : List (String × Json) → String → Option Json
  | [], _ => none
  | (k, v) :: rest, key => if k = key then some v else lookupKV rest key

/-- serde_json `Value::get` with a string key: field lookup on objects,
`None` on any other value. -/
def Json.get : Json → String → Option Json
  | .obj kvs, key => lookupKV kvs key
  | _, _ => none

/-- serde_json `Value::as_str`. -/
def Json.as_str : Json → Option String
  | .str s => some s
  | _ => none

/-- serde_json `Value::as_i64`: an integer representable as a signed 64-bit
value. -/
def Json.as_i64 : Json → Option Int
  | .num n => if -9223372036854775808 ≤ n ∧ n < 9223372036854775808 then some n else none
  | _ => none

/-- serde_json `Value::as_array`. -/
def Json.as_array : Json → Option (List Json)
  | .arr xs => some xs
  | _ => none

/-- The kind of Rust panic a decode can hit: `.unwrap()` on `None`, or the
explicit `unreachable!()` arm in the binding symbol match. -/
inductive PanicKind where
  | unwrapNone
  | unreachableCode
deriving DecidableEq

/-- Outcome of running a decoder body after a successful parse: the decoded
value together with the `warn!` diagnostics emitted on the way, or a panic. -/
inductive DecRes (α : Type) where
  | ok (v : α) (diags : List String)
  | panicked (k : PanicKind)

/-- Outcome of a full `from_str` call: parse failures surface as
`malformed` (the propagated `json::error::Error`); there is no other error
constructor because the Rust code defines none — every schema problem is an
unwrap panic. -/
inductive DecodeResult (α : Type) where
  | ok (v : α) (diags : List String)
  | malformed
  | panicked (k : PanicKind)

/-- Lift a post-parse outcome into a full decode outcome. -/
def DecRes.toResult : DecRes α → DecodeResult α
  | .ok v ds => .ok v ds
  | .panicked k => .panicked k

/-- `o.unwrap()` followed by the rest of the decoder: `None` panics. -/
def DecRes.unwrapThen (o : Option α) (f : α → DecRes β) : DecRes β :=
  match o with
  | none => .panicked .unwrapNone
  | some v => f v

/-- The kind of workspace change (event::inner::WorkspaceChange). -/
inductive WorkspaceChange where
  | Focus | Init | Empty | Urgent | Rename | Reload | Restored | Move
  | Unknown
deriving DecidableEq

/-- The kind of output change (event::inner::OutputChange). -/
inductive OutputChange where
  | Unspecified
  | Unknown
deriving DecidableEq

/-- The kind of window change (event::inner::WindowChange). The `Mark`
variant exists only under the `i3-4-13` feature; here it is always a
constructor and the feature gate is modelled in `windowChange_from`. -/
inductive WindowChange where
  | New | Close | Focus | Title | FullscreenMode | Move | Floating | Urgent
  | Mark
  | Unknown
deriving DecidableEq

/-- Keyboard or mouse (event::inner::InputType). -/
inductive InputType where
  | Keyboard | Mouse
  | Unknown
deriving DecidableEq

/-- The kind of binding change (event::inner::BindingChange). -/
inductive BindingChange where
  | Run
  | Unknown
deriving DecidableEq

/-- The kind of shutdown change (event::inner::ShutdownChange), gated by the
`i3-4-14` feature. -/
inductive ShutdownChange where
  | Restart | Exit
  | Unknown
deriving DecidableEq

/-- Modelled from the spec: the tree-node snapshot (`reply::Node`) is an
external entity built by `common::build_tree`, whose source is outside this
subsystem.  Only the fields the event renderer reads are modelled: the node
id and its optional name. -/
structure Node where
  id : Int
  name : Option String
deriving DecidableEq

/-- Modelled from the spec: the external, already-correct tree-node builder
`common::build_tree`, treated as an opaque total constructor; we model it as
reading the id and name fields with defaults. -/
def build_tree (v : Json) : Node :=
  { id := ((v.get "id").bind Json.as_i64).getD 0
    name := (v.get "name").bind Json.as_str }

/-- Modelled from the spec: the bar configuration snapshot (`reply::BarConfig`):
identifier, mode, position, status-command string, font, boolean display
toggles, color mapping. -/
structure BarConfig where
  id : String
  mode : String
  position : String
  status_command : String
  font : String
  workspace_buttons : Bool
  binding_mode_indicator : Bool
  verbose : Bool
  colors : List (String × String)
deriving DecidableEq

/-- Modelled from the spec: the external "build bar configuration from
document" operation `common::build_bar_config`, treated as an opaque total
builder reading the named fields with defaults. -/
def build_bar_config (v : Json) : BarConfig :=
  { id := ((v.get "id").bind Json.as_str).getD ""
    mode := ((v.get "mode").bind Json.as_str).getD ""
    position := ((v.get "position").bind Json.as_str).getD ""
    status_command := ((v.get "status_command").bind Json.as_str).getD ""
    font := ((v.get "font").bind Json.as_str).getD ""
    workspace_buttons := false
    binding_mode_indicator := false
    verbose := false
    colors := [] }

/-- Data for `WorkspaceEvent`. -/
structure WorkspaceEventInfo where
  change : WorkspaceChange
  current : Option Node
  old : Option Node
deriving DecidableEq

/-- Data for `OutputEvent`. -/
structure OutputEventInfo where
  change : OutputChange
deriving DecidableEq

/-- Data for `ModeEvent`. -/
structure ModeEventInfo where
  change : String
deriving DecidableEq

/-- Data for `WindowEvent`. -/
structure WindowEventInfo where
  change : WindowChange
  container : Node
deriving DecidableEq

/-- Data for `BarConfigEvent`. -/
structure BarConfigEventInfo where
  bar_config : BarConfig
deriving DecidableEq

/-- Details about the binding that was run (event::inner::Binding).
`input_code` is `i32` in Rust; decoding stores `toI32` of the read value. -/
structure Binding where
  command : String
  event_state_mask : List String
  input_code : Int
  symbol : Option String
  input_type : InputType
deriving DecidableEq

/-- Data for `BindingEvent`. -/
structure BindingEventInfo where
  change : BindingChange
  binding : Binding
deriving DecidableEq

/-- Data for `ShutdownEvent` (feature `i3-4-14`). -/
structure ShutdownEventInfo where
  change : ShutdownChange
deriving DecidableEq

/-- The event union. The `ShutdownEvent` constructor exists in Rust only
under the `i3-4-14` feature; that gating is modelled by
`availableCategories`. -/
inductive Event where
  | WorkspaceEvent (e : WorkspaceEventInfo)
  | OutputEvent (e : OutputEventInfo)
  | ModeEvent (e : ModeEventInfo)
  | WindowEvent (e : WindowEventInfo)
  | BarConfigEvent (e : BarConfigEventInfo)
  | BindingEvent (e : BindingEventInfo)
  | ShutdownEvent (e : ShutdownEventInfo)
deriving DecidableEq

/-- The subscription categories of the event union. -/
inductive EventCategory where
  | workspace | output | mode | window | barconfig | binding | shutdown
deriving DecidableEq

/-- The event categories constructible for the caller, as a function of the
`i3-4-14` feature flag: the `ShutdownEvent` variant of `Event` is compiled
in only when the flag is set. -/
def availableCategories (i3_4_14 : Bool) : List EventCategory :=
  [.workspace, .output, .mode, .window, .barconfig, .binding] ++
    (if i3_4_14 then [.shutdown] else [])

/-- The `change` match in `WorkspaceEventInfo::from_str`: known tags map to
their variant, anything else maps to `Unknown` plus a `warn!` diagnostic. -/
def workspaceChange_from (s : String) : WorkspaceChange × List String :=
  match s with
  | "focus" => (.Focus, [])
  | "init" => (.Init, [])
  | "empty" => (.Empty, [])
  | "urgent" => (.Urgent, [])
  | "rename" => (.Rename, [])
  | "reload" => (.Reload, [])
  | "move" => (.Move, [])
  | "restored" => (.Restored, [])
  | other => (.Unknown, ["Unknown WorkspaceChange " ++ other])

/-- The `change` match in `OutputEventInfo::from_str`. -/
def outputChange_from (s : String) : OutputChange × List String :=
  match s with
  | "unspecified" => (.Unspecified, [])
  | other => (.Unknown, ["Unknown OutputChange " ++ other])

/-- The `change` match in `WindowEventInfo::from_str`. The `"mark"` arm is
compiled in only under the `i3-4-13` feature (`mark_supported`); without it
the tag falls through to the catch-all. -/
def windowChange_from (mark_supported : Bool) (s : String) : WindowChange × List String :=
  if mark_supported = true ∧ s = "mark" then (.Mark, [])
  else
    match s with
    | "new" => (.New, [])
    | "close" => (.Close, [])
    | "focus" => (.Focus, [])
    | "title" => (.Title, [])
    | "fullscreen_mode" => (.FullscreenMode, [])
    | "move" => (.Move, [])
    | "floating" => (.Floating, [])
    | "urgent" => (.Urgent, [])
    | other => (.Unknown, ["Unknown WindowChange " ++ other])

/-- The `change` match in `BindingEventInfo::from_str`. -/
def bindingChange_from (s : String) : BindingChange × List String :=
  match s with
  | "run" => (.Run, [])
  | other => (.Unknown, ["Unknown BindingChange " ++ other])

/-- The `input_type` match in `BindingEventInfo::from_str`. -/
def inputType_from (s : String) : InputType × List String :=
  match s with
  | "keyboard" => (.Keyboard, [])
  | "mouse" => (.Mouse, [])
  | other => (.Unknown, ["Unknown InputType " ++ other])

/-- The `change` match in `ShutdownEventInfo::from_str` (feature `i3-4-14`). -/
def shutdownChange_from (s : String) : ShutdownChange × List String :=
  match s with
  | "restart" => (.Restart, [])
  | "exit" => (.Exit, [])
  | other => (.Unknown, ["Unknown ShutdownChange " ++ other])

/-- The null-check applied to the `current`/`old` sub-documents in
`WorkspaceEventInfo::from_str`: `Null` becomes `None`, any other value is
handed to the external tree builder. -/
def nodeOrNull : Json → Option Node
  | Json.null => none
  | w => some (build_tree w)

/-- The `old` field decode in `WorkspaceEventInfo::from_str`: an absent field
and a present-but-null field both decode to `None`. -/
def decodedOld (v : Json) : Option Node :=
  match v.get "old" with
  | some o => nodeOrNull o
  | none => none

/-- Body of `WorkspaceEventInfo::from_str` after the parse, mirroring the
Rust field evaluation order: `change` (two unwraps), `current` (unwrap, then
null check), `old` (no unwrap). -/
def WorkspaceEventInfo.from_val (v : Json) : DecRes WorkspaceEventInfo :=
  DecRes.unwrapThen (v.get "change") fun c0 =>
  DecRes.unwrapThen c0.as_str fun cs =>
  let p := workspaceChange_from cs
  DecRes.unwrapThen (v.get "current") fun cur =>
  DecRes.ok { change := p.1, current := nodeOrNull cur, old := decodedOld v } p.2

/-- `WorkspaceEventInfo::from_str`: `none` is a parse failure of the raw
text, propagated by `?` as `malformed`. -/
def WorkspaceEventInfo.from_str (p : Option Json) : DecodeResult WorkspaceEventInfo :=
  match p with
  | none => .malformed
  | some v => (WorkspaceEventInfo.from_val v).toResult

/-- Body of `OutputEventInfo::from_str` after the parse. -/
def OutputEventInfo.from_val (v : Json) : DecRes OutputEventInfo :=
  DecRes.unwrapThen (v.get "change") fun c0 =>
  DecRes.unwrapThen c0.as_str fun cs =>
  let p := outputChange_from cs
  DecRes.ok { change := p.1 } p.2

/-- `OutputEventInfo::from_str`. -/
def OutputEventInfo.from_str (p : Option Json) : DecodeResult OutputEventInfo :=
  match p with
  | none => .malformed
  | some v => (OutputEventInfo.from_val v).toResult

/-- Body of `ModeEventInfo::from_str` after the parse. -/
def ModeEventInfo.from_val (v : Json) : DecRes ModeEventInfo :=
  DecRes.unwrapThen (v.get "change") fun c0 =>
  DecRes.unwrapThen c0.as_str fun cs =>
  DecRes.ok { change := cs } []

/-- `ModeEventInfo::from_str`. -/
def ModeEventInfo.from_str (p : Option Json) : DecodeResult ModeEventInfo :=
  match p with
  | none => .malformed
  | some v => (ModeEventInfo.from_val v).toResult

/-- Body of `WindowEventInfo::from_str` after the parse: `change` (two
unwraps, tag table), then `container` (unwrap, then the external tree
builder — the field is mandatory, a missing `container` is an unwrap
panic). -/
def WindowEventInfo.from_val (mark_supported : Bool) (v : Json) : DecRes WindowEventInfo :=
  DecRes.unwrapThen (v.get "change") fun c0 =>
  DecRes.unwrapThen c0.as_str fun cs =>
  let p := windowChange_from mark_supported cs
  DecRes.unwrapThen (v.get "container") fun cont =>
  DecRes.ok { change := p.1, container := build_tree cont } p.2

/-- `WindowEventInfo::from_str`. -/
def WindowEventInfo.from_str (mark_supported : Bool) (p : Option Json) : DecodeResult WindowEventInfo :=
  match p with
  | none => .malformed
  | some v => (WindowEventInfo.from_val mark_supported v).toResult

/-- Body of `BarConfigEventInfo::from_str` after the parse: the whole
document goes to the external bar-config builder, no unwraps. -/
def BarConfigEventInfo.from_val (v : Json) : DecRes BarConfigEventInfo :=
  DecRes.ok { bar_config := build_bar_config v } []

/-- `BarConfigEventInfo::from_str`. -/
def BarConfigEventInfo.from_str (p : Option Json) : DecodeResult BarConfigEventInfo :=
  match p with
  | none => .malformed
  | some v => (BarConfigEventInfo.from_val v).toResult

/-- The `.iter().map(|m| m.as_str().unwrap().to_owned()).collect()` over the
`event_state_mask` array: `none` when some element is not a string (the
unwrap panic inside the closure). -/
def mapStrs : List Json → Option (List String)
  | [] => some []
  | m :: rest =>
    match m.as_str with
    | none => none
    | some s =>
      match mapStrs rest with
      | none => none
      | some ss => some (s :: ss)

/-- The Rust `as i32` cast applied to the `i64` read from `input_code`:
two's-complement truncation to 32 bits. -/
def toI32 (n : Int) : Int :=
  (n + 2147483648) % 4294967296 - 2147483648

/-- The `symbol` match in `BindingEventInfo::from_str`: a string maps to
`Some`, `Null` to `None`, and any other value hits `unreachable!()`. -/
def symbolField (j : Json) : DecRes (Option String) :=
  match j with
  | .str s => .ok (some s) []
  | .null => .ok none []
  | _ => .panicked .unreachableCode

/-- Body of `BindingEventInfo::from_str` after the parse, mirroring the Rust
evaluation order: `binding` is unwrapped first (the `let bind` line), then
`change`, then the binding sub-fields `command`, `event_state_mask`,
`input_code`, `symbol`, `input_type`. -/
def BindingEventInfo.from_val (v : Json) : DecRes BindingEventInfo :=
  DecRes.unwrapThen (v.get "binding") fun bind =>
  DecRes.unwrapThen (v.get "change") fun ch0 =>
  DecRes.unwrapThen ch0.as_str fun chs =>
  let chp := bindingChange_from chs
  DecRes.unwrapThen (bind.get "command") fun cmd0 =>
  DecRes.unwrapThen cmd0.as_str fun command =>
  DecRes.unwrapThen (bind.get "event_state_mask") fun esm0 =>
  DecRes.unwrapThen esm0.as_array fun esmArr =>
  DecRes.unwrapThen (mapStrs esmArr) fun event_state_mask =>
  DecRes.unwrapThen (bind.get "input_code") fun ic0 =>
  DecRes.unwrapThen ic0.as_i64 fun ic =>
  DecRes.unwrapThen (bind.get "symbol") fun sym0 =>
  match symbolField sym0 with
  | .panicked k => .panicked k
  | .ok symbol _ =>
    DecRes.unwrapThen (bind.get "input_type") fun it0 =>
    DecRes.unwrapThen it0.as_str fun its =>
    let itp := inputType_from its
    DecRes.ok
      { change := chp.1
        binding :=
          { command := command
            event_state_mask := event_state_mask
            input_code := toI32 ic
            symbol := symbol
            input_type := itp.1 } }
      (chp.2 ++ itp.2)

/-- `BindingEventInfo::from_str`. -/
def BindingEventInfo.from_str (p : Option Json) : DecodeResult BindingEventInfo :=
  match p with
  | none => .malformed
  | some v => (BindingEventInfo.from_val v).toResult

/-- Body of `ShutdownEventInfo::from_str` after the parse (feature
`i3-4-14`). -/
def ShutdownEventInfo.from_val (v : Json) : DecRes ShutdownEventInfo :=
  DecRes.unwrapThen (v.get "change") fun c0 =>
  DecRes.unwrapThen c0.as_str fun cs =>
  let p := shutdownChange_from cs
  DecRes.ok { change := p.1 } p.2

/-- `ShutdownEventInfo::from_str`. -/
def ShutdownEventInfo.from_str (p : Option Json) : DecodeResult ShutdownEventInfo :=
  match p with
  | none => .malformed
  | some v => (ShutdownEventInfo.from_val v).toResult

/-- Rust derived `Debug` output for `WorkspaceChange` (the `{:?}` format). -/
def WorkspaceChange.debugStr : WorkspaceChange → String
  | .Focus => "Focus"
  | .Init => "Init"
  | .Empty => "Empty"
  | .Urgent => "Urgent"
  | .Rename => "Rename"
  | .Reload => "Reload"
  | .Restored => "Restored"
  | .Move => "Move"
  | .Unknown => "Unknown"

/-- Rust derived `Debug` output for `WindowChange`. -/
def WindowChange.debugStr : WindowChange → String
  | .New => "New"
  | .Close => "Close"
  | .Focus => "Focus"
  | .Title => "Title"
  | .FullscreenMode => "FullscreenMode"
  | .Move => "Move"
  | .Floating => "Floating"
  | .Urgent => "Urgent"
  | .Mark => "Mark"
  | .Unknown => "Unknown"

/-- Rust derived `Debug` output for `BindingChange`. -/
def BindingChange.debugStr : BindingChange → String
  | .Run => "Run"
  | .Unknown => "Unknown"

/-- The manual `Display` impl for `OutputChange`. -/
def OutputChange.displayStr : OutputChange → String
  | .Unspecified => "unspecified"
  | .Unknown => "unknown"

/-- The manual `Display` impl for `BindingChange`. -/
def BindingChange.displayStr : BindingChange → String
  | .Run => "run"
  | .Unknown => "unknown"

/-- The manual `Display` impl for `ShutdownChange` (feature `i3-4-14`). -/
def ShutdownChange.displayStr : ShutdownChange → String
  | .Restart => "restart"
  | .Exit => "exit"
  | .Unknown => "unknown"

/-- Rust derived `Debug` output for `Option<String>` (string escaping
elided). -/
def fmtOptName : Option String → String
  | some s => "Some(\"" ++ s ++ "\")"
  | none => "None"

/-- The `{:?} ({})` rendering of one side of a workspace change, or the
joint literal `unknown` when the node is absent. -/
def nodeSide : Option Node → String
  | some node => fmtOptName node.name ++ " (" ++ toString node.id ++ ")"
  | none => "unknown"

/-- The `Display` impl for `WorkspaceEventInfo`:
`"{:?} change from {} to {}"` with change, old, current. -/
def WorkspaceEventInfo.display (e : WorkspaceEventInfo) : String :=
  let current := nodeSide e.current
  let old := nodeSide e.old
  e.change.debugStr ++ " change from " ++ old ++ " to " ++ current

/-- The `Display` impl for `OutputEventInfo`: `"{} output event"`. -/
def OutputEventInfo.display (e : OutputEventInfo) : String :=
  e.change.displayStr ++ " output event"

/-- The `Display` impl for `ModeEventInfo`: `"{} mode"`. -/
def ModeEventInfo.display (e : ModeEventInfo) : String :=
  e.change ++ " mode"

/-- The `Display` impl for `WindowEventInfo`:
`"{:?} event for window {}; id: {}"` with the container name defaulting to
`untitled`. -/
def WindowEventInfo.display (e : WindowEventInfo) : String :=
  e.change.debugStr ++ " event for window " ++ (e.container.name.getD "untitled")
    ++ "; id: " ++ toString e.container.id

/-- The `Display` impl for `BarConfigEventInfo`. -/
def BarConfigEventInfo.display (e : BarConfigEventInfo) : String :=
  "bar id: " ++ e.bar_config.id ++ "; mode: " ++ e.bar_config.mode
    ++ "; position: " ++ e.bar_config.position
    ++ "; status command: " ++ e.bar_config.status_command

/-- The `Display` impl for `BindingEventInfo`: `"{:?} '{}' {}+{}"` with the
change in `Debug` form, the command, the modifier list joined by `+`, and
the symbol defaulting to the empty string. -/
def BindingEventInfo.display (e : BindingEventInfo) : String :=
  e.change.debugStr ++ " '" ++ e.binding.command ++ "' "
    ++ String.intercalate "+" e.binding.event_state_mask
    ++ "+" ++ (e.binding.symbol.getD "")

/-- The `Display` impl for `ShutdownEventInfo` (feature `i3-4-14`):
`"{} event"`. -/
def ShutdownEventInfo.display (e : ShutdownEventInfo) : String :=
  e.change.displayStr ++ " event"

/-- The `Display` impl for `Event`: dispatch to the variant payload. -/
def Event.display : Event → String
  | .WorkspaceEvent e => e.display
  | .OutputEvent e => e.display
  | .ModeEvent e => e.display
  | .WindowEvent e => e.display
  | .BarConfigEvent e => e.display
  | .BindingEvent e => e.display
  | .ShutdownEvent e => e.display

/-- Any tag outside the workspace table maps to `Unknown` plus the warn
diagnostic. -/
theorem workspaceChange_from_unknown (s : String)
    (h : s ∉ ["focus", "init", "empty", "urgent", "rename", "reload", "move", "restored"]) :
    workspaceChange_from s = (.Unknown, ["Unknown WorkspaceChange " ++ s]) := by
  simp only [List.mem_cons, List.not_mem_nil, or_false, not_or] at h
  unfold workspaceChange_from
  split <;> simp_all

/-- Any tag outside the output table maps to `Unknown` plus the warn
diagnostic. -/
theorem outputChange_from_unknown (s : String) (h : s ∉ ["unspecified"]) :
    outputChange_from s = (.Unknown, ["Unknown OutputChange " ++ s]) := by
  simp only [List.mem_cons, List.not_mem_nil, or_false, not_or] at h
  unfold outputChange_from
  split <;> simp_all

/-- Any tag outside the window table (whether or not the `i3-4-13` feature
admits `"mark"`) maps to `Unknown` plus the warn diagnostic. -/
theorem windowChange_from_unknown (m : Bool) (s : String)
    (h : s ∉ ["new", "close", "focus", "title", "fullscreen_mode", "move", "floating", "urgent", "mark"]) :
    windowChange_from m s = (.Unknown, ["Unknown WindowChange " ++ s]) := by
  simp only [List.mem_cons, List.not_mem_nil, or_false, not_or] at h
  unfold windowChange_from
  rw [if_neg (by tauto)]
  split <;> simp_all

/-- Any tag outside the binding table maps to `Unknown` plus the warn
diagnostic. -/
theorem bindingChange_from_unknown (s : String) (h : s ∉ ["run"]) :
    bindingChange_from s = (.Unknown, ["Unknown BindingChange " ++ s]) := by
  simp only [List.mem_cons, List.not_mem_nil, or_false, not_or] at h
  unfold bindingChange_from
  split <;> simp_all

/-- Any tag outside the input-type table maps to `Unknown` plus the warn
diagnostic. -/
theorem inputType_from_unknown (s : String) (h : s ∉ ["keyboard", "mouse"]) :
    inputType_from s = (.Unknown, ["Unknown InputType " ++ s]) := by
  simp only [List.mem_cons, List.not_mem_nil, or_false, not_or] at h
  unfold inputType_from
  split <;> simp_all

/-- Any tag outside the shutdown table maps to `Unknown` plus the warn
diagnostic. -/
theorem shutdownChange_from_unknown (s : String) (h : s ∉ ["restart", "exit"]) :
    shutdownChange_from s = (.Unknown, ["Unknown ShutdownChange " ++ s]) := by
  simp only [List.mem_cons, List.not_mem_nil, or_false, not_or] at h
  unfold shutdownChange_from
  split <;> simp_all

/-- Characterization of a successful workspace decode: with `change` a string
and `current` present, the result collects the tag-table outcome, the
null-checked `current`, and the `old` decode. -/
theorem workspace_from_val_eq (v : Json) (c : String) (cur : Json)
    (h1 : v.get "change" = some (Json.str c)) (h2 : v.get "current" = some cur) :
    WorkspaceEventInfo.from_val v =
      .ok { change := (workspaceChange_from c).1, current := nodeOrNull cur, old := decodedOld v }
        (workspaceChange_from c).2 := by
  simp [WorkspaceEventInfo.from_val, h1, h2, DecRes.unwrapThen, Json.as_str]

/-- Mapping `as_str().unwrap()` over an array of strings recovers the
strings. -/
theorem mapStrs_map_str (xs : List String) : mapStrs (xs.map Json.str) = some xs := by
  induction xs with
  | nil => rfl
  | cons x xs ih => simp [mapStrs, Json.as_str, ih]

/-- The serialization tag of a known workspace change (the inverse of the
tag table on its known part). -/
def workspaceChangeTag : WorkspaceChange → Option String
  | .Focus => some "focus"
  | .Init => some "init"
  | .Empty => some "empty"
  | .Urgent => some "urgent"
  | .Rename => some "rename"
  | .Reload => some "reload"
  | .Move => some "move"
  | .Restored => some "restored"
  | .Unknown => none

/-- The serialization tag of a known binding change. -/
def bindingChangeTag : BindingChange → Option String
  | .Run => some "run"
  | .Unknown => none

/-- The serialization tag of a known input type. -/
def inputTypeTag : InputType → Option String
  | .Keyboard => some "keyboard"
  | .Mouse => some "mouse"
  | .Unknown => none

/-- Hand-construct a workspace document from a chosen change, with both
node fields null. -/
def serializeWorkspace (c : WorkspaceChange) : Json :=
  Json.obj
    [("change", Json.str ((workspaceChangeTag c).getD "")),
     ("current", Json.null),
     ("old", Json.null)]

/-- Hand-construct a binding document from the values of a
`BindingEventInfo`. -/
def serializeBinding (e : BindingEventInfo) : Json :=
  Json.obj
    [("change", Json.str ((bindingChangeTag e.change).getD "")),
     ("binding", Json.obj
       [("command", Json.str e.binding.command),
        ("event_state_mask", Json.arr (e.binding.event_state_mask.map Json.str)),
        ("input_code", Json.num e.binding.input_code),
        ("symbol", (e.binding.symbol.elim Json.null Json.str)),
        ("input_type", Json.str ((inputTypeTag e.binding.input_type).getD ""))])]

/-- A binding payload whose `binding.symbol` sub-field is the given value and
whose other fields are valid. -/
def bindingPayloadWithSymbol (j : Json) : Json :=
  Json.obj
    [("change", Json.str "run"),
     ("binding", Json.obj
       [("command", Json.str "cmd"),
        ("event_state_mask", Json.arr []),
        ("input_code", Json.num 0),
        ("symbol", j),
        ("input_type", Json.str "keyboard")])]

/-- A binding payload whose `binding.input_code` sub-field is the given
number and whose other fields are valid. -/
def bindingPayloadWithCode (n : Int) : Json :=
  Json.obj
    [("change", Json.str "run"),
     ("binding", Json.obj
       [("command", Json.str "cmd"),
        ("event_state_mask", Json.arr []),
        ("input_code", Json.num n),
        ("symbol", Json.null),
        ("input_type", Json.str "keyboard")])]

/-- C1 counterexample: at the concrete workspace payload `{}` — structurally
valid JSON lacking the mandatory `change` field — the decode operation does
not return any error value to the caller: it panics (Rust `.unwrap()` on
`None`).  The decoder's error type is serde_json's parse error, which has no
`MissingRequiredField` constructor at all, so the claimed outcome is
impossible; the same holds for a window payload lacking `container`. -/
theorem C1_counterexample :
    WorkspaceEventInfo.from_str (some (Json.obj [])) = .panicked .unwrapNone ∧
    WindowEventInfo.from_str false (some (Json.obj [("change", Json.str "focus")]))
      = .panicked .unwrapNone := by
  constructor <;> rfl

/-- C1 amended: for every event category, a structurally valid payload that
lacks a field the category treats as mandatory (`change` for every category
except BarConfigEvent; `container` for WindowEvent; the whole `binding`
object and `binding.command`, `binding.event_state_mask`,
`binding.input_code`, `binding.symbol`, `binding.input_type` for
BindingEvent) makes the decode operation panic via `.unwrap()` on `None` —
it neither succeeds nor returns an error value naming the field. -/
theorem C1_amended :
    (∀ v : Json, v.get "change" = none →
      WorkspaceEventInfo.from_str (some v) = .panicked .unwrapNone) ∧
    (∀ (v : Json) (c : String), v.get "change" = some (Json.str c) → v.get "current" = none →
      WorkspaceEventInfo.from_str (some v) = .panicked .unwrapNone) ∧
    (∀ v : Json, v.get "change" = none →
      OutputEventInfo.from_str (some v) = .panicked .unwrapNone) ∧
    (∀ v : Json, v.get "change" = none →
      ModeEventInfo.from_str (some v) = .panicked .unwrapNone) ∧
    (∀ (m : Bool) (v : Json), v.get "change" = none →
      WindowEventInfo.from_str m (some v) = .panicked .unwrapNone) ∧
    (∀ (m : Bool) (v : Json) (c : String), v.get "change" = some (Json.str c) →
      v.get "container" = none →
      WindowEventInfo.from_str m (some v) = .panicked .unwrapNone) ∧
    (∀ v : Json, v.get "binding" = none →
      BindingEventInfo.from_str (some v) = .panicked .unwrapNone) ∧
    (∀ (v b : Json), v.get "binding" = some b → v.get "change" = none →
      BindingEventInfo.from_str (some v) = .panicked .unwrapNone) ∧
    (∀ (v b : Json) (c : String), v.get "binding" = some b →
      v.get "change" = some (Json.str c) → b.get "command" = none →
      BindingEventInfo.from_str (some v) = .panicked .unwrapNone) ∧
    (∀ (v b : Json) (c cmd : String), v.get "binding" = some b →
      v.get "change" = some (Json.str c) → b.get "command" = some (Json.str cmd) →
      b.get "event_state_mask" = none →
      BindingEventInfo.from_str (some v) = .panicked .unwrapNone) ∧
    (∀ (v b : Json) (c cmd : String) (mask : List String), v.get "binding" = some b →
      v.get "change" = some (Json.str c) → b.get "command" = some (Json.str cmd) →
      b.get "event_state_mask" = some (Json.arr (mask.map Json.str)) →
      b.get "input_code" = none →
      BindingEventInfo.from_str (some v) = .panicked .unwrapNone) ∧
    (∀ (v b : Json) (c cmd : String) (mask : List String) (n : Int), v.get "binding" = some b →
      v.get "change" = some (Json.str c) → b.get "command" = some (Json.str cmd) →
      b.get "event_state_mask" = some (Json.arr (mask.map Json.str)) →
      b.get "input_code" = some (Json.num n) →
      -9223372036854775808 ≤ n → n < 9223372036854775808 →
      b.get "symbol" = none →
      BindingEventInfo.from_str (some v) = .panicked .unwrapNone) ∧
    (∀ (v b : Json) (c cmd : String) (mask : List String) (n : Int), v.get "binding" = some b →
      v.get "change" = some (Json.str c) → b.get "command" = some (Json.str cmd) →
      b.get "event_state_mask" = some (Json.arr (mask.map Json.str)) →
      b.get "input_code" = some (Json.num n) →
      -9223372036854775808 ≤ n → n < 9223372036854775808 →
      b.get "symbol" = some Json.null →
      b.get "input_type" = none →
      BindingEventInfo.from_str (some v) = .panicked .unwrapNone) ∧
    (∀ v : Json, v.get "change" = none →
      ShutdownEventInfo.from_str (some v) = .panicked .unwrapNone) := by
  refine ⟨?_, ?_, ?_, ?_, ?_, ?_, ?_, ?_, ?_, ?_, ?_, ?_, ?_, ?_⟩
  · intro v h
    simp [WorkspaceEventInfo.from_str, WorkspaceEventInfo.from_val, h,
      DecRes.unwrapThen, DecRes.toResult]
  · intro v c h1 h2
    simp [WorkspaceEventInfo.from_str, WorkspaceEventInfo.from_val, h1, h2,
      DecRes.unwrapThen, DecRes.toResult, Json.as_str]
  · intro v h
    simp [OutputEventInfo.from_str, OutputEventInfo.from_val, h,
      DecRes.unwrapThen, DecRes.toResult]
  · intro v h
    simp [ModeEventInfo.from_str, ModeEventInfo.from_val, h,
      DecRes.unwrapThen, DecRes.toResult]
  · intro m v h
    simp [WindowEventInfo.from_str, WindowEventInfo.from_val, h,
      DecRes.unwrapThen, DecRes.toResult]
  · intro m v c h1 h2
    simp [WindowEventInfo.from_str, WindowEventInfo.from_val, h1, h2,
      DecRes.unwrapThen, DecRes.toResult, Json.as_str]
  · intro v h
    simp [BindingEventInfo.from_str, BindingEventInfo.from_val, h,
      DecRes.unwrapThen, DecRes.toResult]
  · intro v b h1 h2
    simp [BindingEventInfo.from_str, BindingEventInfo.from_val, h1, h2,
      DecRes.unwrapThen, DecRes.toResult]
  · intro v b c h1 h2 h3
    simp [BindingEventInfo.from_str, BindingEventInfo.from_val, h1, h2, h3,
      DecRes.unwrapThen, DecRes.toResult, Json.as_str]
  · intro v b c cmd h1 h2 h3 h4
    simp [BindingEventInfo.from_str, BindingEventInfo.from_val, h1, h2, h3, h4,
      DecRes.unwrapThen, DecRes.toResult, Json.as_str]
  · intro v b c cmd mask h1 h2 h3 h4 h5
    simp [BindingEventInfo.from_str, BindingEventInfo.from_val, h1, h2, h3, h4, h5,
      DecRes.unwrapThen, DecRes.toResult, Json.as_str, Json.as_array, mapStrs_map_str]
  · intro v b c cmd mask n h1 h2 h3 h4 h5 hn1 hn2 h6
    simp [BindingEventInfo.from_str, BindingEventInfo.from_val, h1, h2, h3, h4, h5, h6,
      hn1, hn2, DecRes.unwrapThen, DecRes.toResult, Json.as_str, Json.as_array,
      Json.as_i64, mapStrs_map_str]
  · intro v b c cmd mask n h1 h2 h3 h4 h5 hn1 hn2 h6 h7
    simp [BindingEventInfo.from_str, BindingEventInfo.from_val, h1, h2, h3, h4, h5, h6, h7,
      hn1, hn2, DecRes.unwrapThen, DecRes.toResult, Json.as_str, Json.as_array,
      Json.as_i64, mapStrs_map_str, symbolField]
  · intro v h
    simp [ShutdownEventInfo.from_str, ShutdownEventInfo.from_val, h,
      DecRes.unwrapThen, DecRes.toResult]

/-- C1 witness: each missing-mandatory-field scenario of the amended claim,
instantiated at a concrete payload, panics. -/
theorem C1_witness :
    WorkspaceEventInfo.from_str (some (Json.obj [])) = .panicked .unwrapNone ∧
    WorkspaceEventInfo.from_str (some (Json.obj [("change", Json.str "focus")]))
      = .panicked .unwrapNone ∧
    OutputEventInfo.from_str (some (Json.obj [])) = .panicked .unwrapNone ∧
    ModeEventInfo.from_str (some (Json.obj [])) = .panicked .unwrapNone ∧
    WindowEventInfo.from_str false (some (Json.obj [])) = .panicked .unwrapNone ∧
    WindowEventInfo.from_str false (some (Json.obj [("change", Json.str "new")]))
      = .panicked .unwrapNone ∧
    BindingEventInfo.from_str (some (Json.obj [])) = .panicked .unwrapNone ∧
    BindingEventInfo.from_str (some (Json.obj [("binding", Json.obj [])]))
      = .panicked .unwrapNone ∧
    BindingEventInfo.from_str (some (Json.obj
      [("binding", Json.obj []), ("change", Json.str "run")])) = .panicked .unwrapNone ∧
    BindingEventInfo.from_str (some (Json.obj
      [("binding", Json.obj [("command", Json.str "x")]), ("change", Json.str "run")]))
      = .panicked .unwrapNone ∧
    BindingEventInfo.from_str (some (Json.obj
      [("binding", Json.obj [("command", Json.str "x"), ("event_state_mask", Json.arr [])]),
       ("change", Json.str "run")])) = .panicked .unwrapNone ∧
    BindingEventInfo.from_str (some (Json.obj
      [("binding", Json.obj [("command", Json.str "x"), ("event_state_mask", Json.arr []),
        ("input_code", Json.num 0)]),
       ("change", Json.str "run")])) = .panicked .unwrapNone ∧
    BindingEventInfo.from_str (some (Json.obj
      [("binding", Json.obj [("command", Json.str "x"), ("event_state_mask", Json.arr []),
        ("input_code", Json.num 0), ("symbol", Json.null)]),
       ("change", Json.str "run")])) = .panicked .unwrapNone ∧
    ShutdownEventInfo.from_str (some (Json.obj [])) = .panicked .unwrapNone := by
  obtain ⟨a1, a2, a3, a4, a5, a6, a7, a8, a9, a10, a11, a12, a13, a14⟩ := C1_amended
  exact ⟨a1 _ rfl,
    a2 _ "focus" rfl rfl,
    a3 _ rfl,
    a4 _ rfl,
    a5 false _ rfl,
    a6 false _ "new" rfl rfl,
    a7 _ rfl,
    a8 _ (Json.obj []) rfl rfl,
    a9 _ (Json.obj []) "run" rfl rfl rfl,
    a10 _ (Json.obj [("command", Json.str "x")]) "run" "x" rfl rfl rfl rfl,
    a11 _ (Json.obj [("command", Json.str "x"), ("event_state_mask", Json.arr [])])
      "run" "x" [] rfl rfl rfl (by rfl) rfl,
    a12 _ (Json.obj [("command", Json.str "x"), ("event_state_mask", Json.arr []),
        ("input_code", Json.num 0)])
      "run" "x" [] 0 rfl rfl rfl (by rfl) rfl (by norm_num) (by norm_num) rfl,
    a13 _ (Json.obj [("command", Json.str "x"), ("event_state_mask", Json.arr []),
        ("input_code", Json.num 0), ("symbol", Json.null)])
      "run" "x" [] 0 rfl rfl rfl (by rfl) rfl (by norm_num) (by norm_num) rfl rfl,
    a14 _ rfl⟩

/-- C2: for every discriminator field (`change` in
Workspace/Output/Window/Binding/Shutdown events and `input_type` in Binding
events), any string outside that category's own known-tag table — each
discriminator quantified independently — maps to the `Unknown` variant
together with a warn diagnostic, and an otherwise-valid payload carrying
such a tag decodes successfully: the unrecognized tag never makes the
decode operation return an error. -/
theorem C2_unknown_tag_degrades :
    (∀ s : String, s ∉ ["focus", "init", "empty", "urgent", "rename", "reload", "move", "restored"] →
      workspaceChange_from s = (.Unknown, ["Unknown WorkspaceChange " ++ s]) ∧
      WorkspaceEventInfo.from_str (some (Json.obj [("change", Json.str s), ("current", Json.null)]))
        = .ok { change := .Unknown, current := none, old := none }
            ["Unknown WorkspaceChange " ++ s]) ∧
    (∀ s : String, s ∉ ["unspecified"] →
      outputChange_from s = (.Unknown, ["Unknown OutputChange " ++ s]) ∧
      OutputEventInfo.from_str (some (Json.obj [("change", Json.str s)]))
        = .ok { change := .Unknown } ["Unknown OutputChange " ++ s]) ∧
    (∀ (m : Bool) (s : String),
      s ∉ ["new", "close", "focus", "title", "fullscreen_mode", "move", "floating", "urgent", "mark"] →
      windowChange_from m s = (.Unknown, ["Unknown WindowChange " ++ s]) ∧
      WindowEventInfo.from_str m (some (Json.obj [("change", Json.str s), ("container", Json.obj [])]))
        = .ok { change := .Unknown, container := build_tree (Json.obj []) }
            ["Unknown WindowChange " ++ s]) ∧
    (∀ s : String, s ∉ ["run"] →
      bindingChange_from s = (.Unknown, ["Unknown BindingChange " ++ s]) ∧
      BindingEventInfo.from_str (some (Json.obj
          [("change", Json.str s),
           ("binding", Json.obj
             [("command", Json.str "cmd"), ("event_state_mask", Json.arr []),
              ("input_code", Json.num 0), ("symbol", Json.null),
              ("input_type", Json.str "keyboard")])]))
        = .ok { change := .Unknown,
                binding := { command := "cmd", event_state_mask := [], input_code := 0,
                             symbol := none, input_type := .Keyboard } }
            ["Unknown BindingChange " ++ s]) ∧
    (∀ s : String, s ∉ ["keyboard", "mouse"] →
      inputType_from s = (.Unknown, ["Unknown InputType " ++ s]) ∧
      BindingEventInfo.from_str (some (Json.obj
          [("change", Json.str "run"),
           ("binding", Json.obj
             [("command", Json.str "cmd"), ("event_state_mask", Json.arr []),
              ("input_code", Json.num 0), ("symbol", Json.null),
              ("input_type", Json.str s)])]))
        = .ok { change := .Run,
                binding := { command := "cmd", event_state_mask := [], input_code := 0,
                             symbol := none, input_type := .Unknown } }
            ["Unknown InputType " ++ s]) ∧
    (∀ s : String, s ∉ ["restart", "exit"] →
      shutdownChange_from s = (.Unknown, ["Unknown ShutdownChange " ++ s]) ∧
      ShutdownEventInfo.from_str (some (Json.obj [("change", Json.str s)]))
        = .ok { change := .Unknown } ["Unknown ShutdownChange " ++ s]) := by
  refine ⟨?_, ?_, ?_, ?_, ?_, ?_⟩
  · intro s h
    refine ⟨workspaceChange_from_unknown s h, ?_⟩
    simp [WorkspaceEventInfo.from_str, WorkspaceEventInfo.from_val, DecRes.unwrapThen,
      DecRes.toResult, Json.get, lookupKV, Json.as_str, nodeOrNull, decodedOld,
      workspaceChange_from_unknown s h]
  · intro s h
    refine ⟨outputChange_from_unknown s h, ?_⟩
    simp [OutputEventInfo.from_str, OutputEventInfo.from_val, DecRes.unwrapThen,
      DecRes.toResult, Json.get, lookupKV, Json.as_str,
      outputChange_from_unknown s h]
  · intro m s h
    refine ⟨windowChange_from_unknown m s h, ?_⟩
    simp [WindowEventInfo.from_str, WindowEventInfo.from_val, DecRes.unwrapThen,
      DecRes.toResult, Json.get, lookupKV, Json.as_str,
      windowChange_from_unknown m s h]
  · intro s h
    refine ⟨bindingChange_from_unknown s h, ?_⟩
    simp [BindingEventInfo.from_str, BindingEventInfo.from_val, DecRes.unwrapThen,
      DecRes.toResult, Json.get, lookupKV, Json.as_str, Json.as_array, Json.as_i64,
      mapStrs, symbolField, toI32, inputType_from,
      bindingChange_from_unknown s h]
  · intro s h
    refine ⟨inputType_from_unknown s h, ?_⟩
    simp [BindingEventInfo.from_str, BindingEventInfo.from_val, DecRes.unwrapThen,
      DecRes.toResult, Json.get, lookupKV, Json.as_str, Json.as_array, Json.as_i64,
      mapStrs, symbolField, toI32, bindingChange_from,
      inputType_from_unknown s h]
  · intro s h
    refine ⟨shutdownChange_from_unknown s h, ?_⟩
    simp [ShutdownEventInfo.from_str, ShutdownEventInfo.from_val, DecRes.unwrapThen,
      DecRes.toResult, Json.get, lookupKV, Json.as_str,
      shutdownChange_from_unknown s h]

/-- C2 witness: per-category instantiations, including strings that belong
to some other category's table — `"run"` under Workspace and Window,
`"keyboard"` as a binding change, `"run"` as an input type, `"focus"` under
Output and Shutdown — all decode to `Unknown` with a diagnostic, never an
error. -/
theorem C2_witness :
    WorkspaceEventInfo.from_str (some (Json.obj [("change", Json.str "run"), ("current", Json.null)]))
      = .ok { change := .Unknown, current := none, old := none }
          ["Unknown WorkspaceChange run"] ∧
    OutputEventInfo.from_str (some (Json.obj [("change", Json.str "focus")]))
      = .ok { change := .Unknown } ["Unknown OutputChange focus"] ∧
    WindowEventInfo.from_str false (some (Json.obj [("change", Json.str "run"), ("container", Json.obj [])]))
      = .ok { change := .Unknown, container := build_tree (Json.obj []) }
          ["Unknown WindowChange run"] ∧
    BindingEventInfo.from_str (some (Json.obj
        [("change", Json.str "keyboard"),
         ("binding", Json.obj
           [("command", Json.str "cmd"), ("event_state_mask", Json.arr []),
            ("input_code", Json.num 0), ("symbol", Json.null),
            ("input_type", Json.str "keyboard")])]))
      = .ok { change := .Unknown,
              binding := { command := "cmd", event_state_mask := [], input_code := 0,
                           symbol := none, input_type := .Keyboard } }
          ["Unknown BindingChange keyboard"] ∧
    BindingEventInfo.from_str (some (Json.obj
        [("change", Json.str "run"),
         ("binding", Json.obj
           [("command", Json.str "cmd"), ("event_state_mask", Json.arr []),
            ("input_code", Json.num 0), ("symbol", Json.null),
            ("input_type", Json.str "run")])]))
      = .ok { change := .Run,
              binding := { command := "cmd", event_state_mask := [], input_code := 0,
                           symbol := none, input_type := .Unknown } }
          ["Unknown InputType run"] ∧
    ShutdownEventInfo.from_str (some (Json.obj [("change", Json.str "focus")]))
      = .ok { change := .Unknown } ["Unknown ShutdownChange focus"] := by
  obtain ⟨w1, w2, w3, w4, w5, w6⟩ := C2_unknown_tag_degrades
  exact ⟨(w1 "run" (by decide)).2, (w2 "focus" (by decide)).2,
    (w3 false "run" (by decide)).2, (w4 "keyboard" (by decide)).2,
    (w5 "run" (by decide)).2, (w6 "focus" (by decide)).2⟩

/-- C3: for every event category, a raw payload whose text is not valid
structured data (the external parse yields no document) makes the decode
operation return the propagated parse failure `malformed` — no partial
result is produced for that payload. -/
theorem C3_malformed :
    WorkspaceEventInfo.from_str none = .malformed ∧
    OutputEventInfo.from_str none = .malformed ∧
    ModeEventInfo.from_str none = .malformed ∧
    (∀ m : Bool, WindowEventInfo.from_str m none = .malformed) ∧
    BarConfigEventInfo.from_str none = .malformed ∧
    BindingEventInfo.from_str none = .malformed ∧
    ShutdownEventInfo.from_str none = .malformed :=
  ⟨rfl, rfl, rfl, fun _ => rfl, rfl, rfl, rfl⟩

/-- C4: the workspace renderer produces
`"<Change> change from <old-side> to <current-side>"` where each side is the
Debug-rendered name and the id of the node, and an absent `old`/`current`
substitutes the literal token `unknown` for name and id jointly; with both
absent the line is `"<Change> change from unknown to unknown"`, as in the
repository's `test_event_workspace_display`. -/
theorem C4_workspace_render :
    (∀ e : WorkspaceEventInfo,
      e.display = e.change.debugStr ++ " change from " ++ nodeSide e.old
        ++ " to " ++ nodeSide e.current) ∧
    nodeSide none = "unknown" ∧
    (∀ n : Node, nodeSide (some n) = fmtOptName n.name ++ " (" ++ toString n.id ++ ")") ∧
    (∀ e : WorkspaceEventInfo, e.old = none → e.current = none →
      e.display = e.change.debugStr ++ " change from unknown to unknown") ∧
    WorkspaceEventInfo.display { change := .Empty, current := none, old := none }
      = "Empty change from unknown to unknown" := by
  refine ⟨fun e => rfl, rfl, fun n => rfl, ?_, rfl⟩
  intro e h1 h2
  simp only [WorkspaceEventInfo.display, h1, h2, nodeSide]
  rw [String.append_assoc, String.append_assoc, String.append_assoc]
  exact congrArg (fun t => e.change.debugStr ++ t) rfl

/-- C4 witness: the joint-substitution conjunct at the concrete event of the
repository test. -/
theorem C4_witness :
    WorkspaceEventInfo.display { change := .Empty, current := none, old := none }
      = WorkspaceChange.Empty.debugStr ++ " change from unknown to unknown" :=
  C4_workspace_render.2.2.2.1 { change := .Empty, current := none, old := none } rfl rfl

/-- C5: in a workspace payload, `current` or `old` present-but-null decodes
to `none`; `old` entirely absent also decodes to `none`; any other value of
these fields decodes to `some` of the external tree builder's node. -/
theorem C5_optional_fields :
    nodeOrNull Json.null = none ∧
    (∀ w : Json, w ≠ Json.null → nodeOrNull w = some (build_tree w)) ∧
    (∀ (v : Json) (c : String) (cur : Json),
      v.get "change" = some (Json.str c) → v.get "current" = some cur →
      WorkspaceEventInfo.from_str (some v)
        = .ok { change := (workspaceChange_from c).1, current := nodeOrNull cur,
                old := decodedOld v }
            (workspaceChange_from c).2) ∧
    (∀ v : Json, v.get "old" = none → decodedOld v = none) ∧
    (∀ v : Json, v.get "old" = some Json.null → decodedOld v = none) ∧
    (∀ (v : Json) (w : Json), v.get "old" = some w → w ≠ Json.null →
      decodedOld v = some (build_tree w)) := by
  refine ⟨rfl, ?_, ?_, ?_, ?_, ?_⟩
  · intro w hw
    cases w <;> simp_all [nodeOrNull]
  · intro v c cur h1 h2
    simp [WorkspaceEventInfo.from_str, workspace_from_val_eq v c cur h1 h2, DecRes.toResult]
  · intro v h
    simp [decodedOld, h]
  · intro v h
    simp [decodedOld, h, nodeOrNull]
  · intro v w h hw
    cases w <;> simp_all [decodedOld, nodeOrNull]

/-- C5 witness: a workspace payload with `current` null and `old` a node
document decodes `current` to `none` and `old` through the builder; with
`old` absent it decodes `old` to `none`. -/
theorem C5_witness :
    WorkspaceEventInfo.from_str (some (Json.obj
        [("change", Json.str "focus"), ("current", Json.null), ("old", Json.obj [])]))
      = .ok { change := .Focus, current := none, old := some (build_tree (Json.obj [])) } [] ∧
    WorkspaceEventInfo.from_str (some (Json.obj
        [("change", Json.str "focus"), ("current", Json.obj [])]))
      = .ok { change := .Focus, current := some (build_tree (Json.obj [])), old := none } [] := by
  obtain ⟨-, -, c3, -, -, -⟩ := C5_optional_fields
  exact ⟨c3 _ "focus" Json.null rfl rfl, c3 _ "focus" (Json.obj []) rfl rfl⟩

/-- C6: the binding renderer produces
`"<Change> '<command>' <modifiers-joined-by-+>+<symbol-or-empty>"`; with
`symbol = None` the line ends in the trailing separator `+`, and the
repository's `test_event_binding_display` value renders exactly. -/
theorem C6_binding_render :
    (∀ e : BindingEventInfo,
      e.display = e.change.debugStr ++ " '" ++ e.binding.command ++ "' "
        ++ String.intercalate "+" e.binding.event_state_mask
        ++ "+" ++ (e.binding.symbol.getD "")) ∧
    (∀ e : BindingEventInfo, e.binding.symbol = none →
      e.display = e.change.debugStr ++ " '" ++ e.binding.command ++ "' "
        ++ String.intercalate "+" e.binding.event_state_mask ++ "+") ∧
    BindingEventInfo.display
      { change := .Run,
        binding := { command := "[con_mark=\"F1\"] focus", event_state_mask := ["Mod4"],
                     input_code := 0, symbol := some "F1", input_type := .Keyboard } }
      = "Run '[con_mark=\"F1\"] focus' Mod4+F1" := by
  refine ⟨fun e => rfl, ?_, rfl⟩
  intro e h
  simp [BindingEventInfo.display, h]

/-- C6 witness: a binding with `symbol = None` renders with the trailing
separator. -/
theorem C6_witness :
    BindingEventInfo.display
      { change := .Run,
        binding := { command := "x", event_state_mask := ["Mod4", "Shift"],
                     input_code := 0, symbol := none, input_type := .Keyboard } }
      = "Run 'x' Mod4+Shift+" := by
  have h := C6_binding_render.2.1
    { change := .Run,
      binding := { command := "x", event_state_mask := ["Mod4", "Shift"],
                   input_code := 0, symbol := none, input_type := .Keyboard } } rfl
  simpa using h

/-- C7: without the `i3-4-13` capability the `"mark"` window tag falls
through to `Unknown` with a diagnostic (both at the tag table and through a
full decode), with the capability it yields `Mark` with no diagnostic; and
the ShutdownEvent category is constructible for the caller exactly when the
`i3-4-14` capability is enabled. -/
theorem C7_capability_gating :
    windowChange_from false "mark" = (.Unknown, ["Unknown WindowChange mark"]) ∧
    windowChange_from true "mark" = (.Mark, []) ∧
    WindowEventInfo.from_str false (some (Json.obj
        [("change", Json.str "mark"), ("container", Json.obj [])]))
      = .ok { change := .Unknown, container := build_tree (Json.obj []) }
          ["Unknown WindowChange mark"] ∧
    WindowEventInfo.from_str true (some (Json.obj
        [("change", Json.str "mark"), ("container", Json.obj [])]))
      = .ok { change := .Mark, container := build_tree (Json.obj []) } [] ∧
    EventCategory.shutdown ∉ availableCategories false ∧
    EventCategory.shutdown ∈ availableCategories true :=
  ⟨rfl, rfl, rfl, rfl, by decide, by decide⟩

/-- C8: decoding a hand-constructed document serialized from chosen known
discriminator and required-field values reproduces those values: a workspace
document built from a known change decodes to that change (with the null
node fields decoding to absent), and a binding document built from a
`BindingEventInfo` whose discriminators are known tags and whose input code
is in the 32-bit range decodes to exactly that `BindingEventInfo`. -/
theorem C8_roundtrip :
    (∀ c : WorkspaceChange, c ≠ .Unknown →
      WorkspaceEventInfo.from_str (some (serializeWorkspace c))
        = .ok { change := c, current := none, old := none } []) ∧
    (∀ e : BindingEventInfo, e.change ≠ .Unknown → e.binding.input_type ≠ .Unknown →
      -2147483648 ≤ e.binding.input_code → e.binding.input_code < 2147483648 →
      BindingEventInfo.from_str (some (serializeBinding e)) = .ok e []) := by
  constructor
  · intro c hc
    cases c <;> first | rfl | exact absurd rfl hc
  · intro e hch hit h1 h2
    obtain ⟨change, command, esm, ic, symbol, it⟩ := e
    simp only at hch hit h1 h2
    have h64 : -9223372036854775808 ≤ ic ∧ ic < 9223372036854775808 := by
      constructor <;> omega
    cases change <;> cases it <;> cases symbol <;>
      simp_all [serializeBinding, bindingChangeTag, inputTypeTag,
        BindingEventInfo.from_str, BindingEventInfo.from_val,
        DecRes.unwrapThen, DecRes.toResult, Json.get, lookupKV, Json.as_str, Json.as_array,
        Json.as_i64, mapStrs_map_str, bindingChange_from, inputType_from, symbolField,
        toI32, Option.elim] <;> omega

/-- C8 witness: concrete round trips for a workspace change and a full
binding event. -/
theorem C8_witness :
    WorkspaceEventInfo.from_str (some (serializeWorkspace .Empty))
      = .ok { change := .Empty, current := none, old := none } [] ∧
    BindingEventInfo.from_str (some (serializeBinding
        { change := .Run,
          binding := { command := "exec firefox", event_state_mask := ["Mod4", "Shift"],
                       input_code := 38, symbol := some "n", input_type := .Keyboard } }))
      = .ok { change := .Run,
              binding := { command := "exec firefox", event_state_mask := ["Mod4", "Shift"],
                           input_code := 38, symbol := some "n", input_type := .Keyboard } }
          [] := by
  obtain ⟨r1, r2⟩ := C8_roundtrip
  refine ⟨r1 .Empty (by decide), r2 _ (by decide) (by decide) (by norm_num) (by norm_num)⟩

/-- C9: a binding payload whose `binding.symbol` field is present but is
neither a string nor null reaches the `unreachable!()` arm: the decode
operation panics instead of returning an error value or degrading. -/
theorem C9_symbol_unreachable (j : Json)
    (hstr : ∀ s : String, j ≠ Json.str s) (hnull : j ≠ Json.null) :
    BindingEventInfo.from_str (some (bindingPayloadWithSymbol j))
      = .panicked .unreachableCode := by
  cases j with
  | str s => exact absurd rfl (hstr s)
  | null => exact absurd rfl hnull
  | _ =>
    simp [bindingPayloadWithSymbol, BindingEventInfo.from_str, BindingEventInfo.from_val,
      DecRes.unwrapThen, DecRes.toResult, Json.get, lookupKV, Json.as_str, Json.as_array,
      Json.as_i64, mapStrs, symbolField, bindingChange_from]

/-- C9 witness: a numeric `binding.symbol` hits the `unreachable!()` panic. -/
theorem C9_witness :
    BindingEventInfo.from_str (some (bindingPayloadWithSymbol (Json.num 5)))
      = .panicked .unreachableCode :=
  C9_symbol_unreachable (Json.num 5) (fun _ h => Json.noConfusion h)
    (fun h => Json.noConfusion h)

/-- C10: the `binding.input_code` field is read as a signed 64-bit integer
and cast with `as i32`: on any readable value the decoded code is the
two's-complement truncation `toI32`, which agrees with the input modulo
2^32, always lies in the signed 32-bit range, is the identity exactly on
that range, and differs from any out-of-range input — e.g. 2^31 becomes
-2^31. -/
theorem C10_input_code_truncation :
    (∀ n : Int, -9223372036854775808 ≤ n → n < 9223372036854775808 →
      BindingEventInfo.from_str (some (bindingPayloadWithCode n))
        = .ok { change := .Run,
                binding := { command := "cmd", event_state_mask := [],
                             input_code := toI32 n, symbol := none,
                             input_type := .Keyboard } } []) ∧
    (∀ n : Int, toI32 n % 4294967296 = n % 4294967296) ∧
    (∀ n : Int, -2147483648 ≤ toI32 n ∧ toI32 n < 2147483648) ∧
    (∀ n : Int, -2147483648 ≤ n → n < 2147483648 → toI32 n = n) ∧
    toI32 2147483648 = -2147483648 := by
  refine ⟨?_, ?_, ?_, ?_, by decide⟩
  · intro n h1 h2
    simp [bindingPayloadWithCode, BindingEventInfo.from_str, BindingEventInfo.from_val,
      DecRes.unwrapThen, DecRes.toResult, Json.get, lookupKV, Json.as_str, Json.as_array,
      Json.as_i64, mapStrs, symbolField, bindingChange_from, inputType_from, h1, h2]
  · intro n
    unfold toI32
    omega
  · intro n
    unfold toI32
    constructor <;> omega
  · intro n h1 h2
    unfold toI32
    omega

/-- C10 witness: input code 2^32 + 5 is silently reduced to 5, and 2^31 to
-2^31. -/
theorem C10_witness :
    BindingEventInfo.from_str (some (bindingPayloadWithCode 4294967301))
      = .ok { change := .Run,
              binding := { command := "cmd", event_state_mask := [],
                           input_code := 5, symbol := none,
                           input_type := .Keyboard } } [] ∧
    BindingEventInfo.from_str (some (bindingPayloadWithCode 2147483648))
      = .ok { change := .Run,
              binding := { command := "cmd", event_state_mask := [],
                           input_code := -2147483648, symbol := none,
                           input_type := .Keyboard } } [] := by
  have h1 := C10_input_code_truncation.1 4294967301 (by norm_num) (by norm_num)
  have h2 := C10_input_code_truncation.1 2147483648 (by norm_num) (by norm_num)
  rw [show toI32 4294967301 = 5 from by decide] at h1
  rw [show toI32 2147483648 = -2147483648 from by decide] at h2
  exact ⟨h1, h2⟩
